import Mathlib

/-
  Shallow embedding of src/pkg/provider/aws/client.go (package aws of
  ritmun/osdctl): the AwsClient facade, its two constructors
  NewAwsClient and NewAwsClientWithInput, and its fourteen forwarding
  methods.

  External SDK operations (filepath.Abs, session.NewSessionWithOptions,
  session.NewSession, sess.Config.Credentials.Get, iam.New, sts.New,
  s3.New and the sub-client method implementations) are modelled as
  oracle parameters: the embedding fixes only the control flow and data
  flow that the repository's own code contributes.
-/

namespace OsdctlAws

/-- Go error values as they appear in this code: an error satisfying the
SDK interface awserr.Error (carrying a code and a message), any other
non-nil error, and the result of errors.Wrap. A Go `error` that may be
nil is modelled as `Option GoError` with `none` for nil. -/
inductive GoError where
  | awsErr (code msg : String)
  | strErr (msg : String)
  | wrapped (msg : String) (inner : GoError)
deriving DecidableEq, Repr

/-- The type assertion `err.(awserr.Error)` succeeds exactly on `awsErr`
values: `errors.Wrap` results and plain errors do not implement the
awserr.Error interface. -/
def GoError.isAwsErr : GoError → Bool
  | .awsErr _ _ => true
  | _ => false

/-- Whether an error value is the result of an errors.Wrap call. -/
def GoError.isWrapped : GoError → Bool
  | .wrapped _ _ => true
  | _ => false

/-- Embeds errors.Wrap(err, message) from github.com/pkg/errors on a
non-nil err: it annotates err with message. -/
def errorsWrap (err : GoError) (message : String) : GoError :=
  .wrapped message err

/-- Outcome of running a Go function that can panic (session.Must panics
when session construction fails; a method call through a nil interface
field panics with a nil-dereference runtime error). -/
inductive Outcome (α : Type) where
  | ok (val : α)
  | panicked (e : GoError)
deriving DecidableEq, Repr

/-- Embeds credentials.NewStaticCredentials: the static credential
triple stored in the session config on construction path B. -/
structure StaticCreds where
  accessKeyID : String
  secretAccessKey : String
  sessionToken : String
deriving DecidableEq, Repr

/-- Embeds the fields of aws.Config that this code sets: Region (a
string pointer, nil when unset) and Credentials (nil unless static
credentials are installed). -/
structure Config where
  region : Option String
  credentials : Option StaticCreds
deriving DecidableEq, Repr

/-- Embeds the fields of session.Options that this code sets: the
embedded Config, the Profile name, and SharedConfigFiles (a nil slice
when unset, modelled as `none`). -/
structure SessionOptions where
  config : Config
  profile : String
  sharedConfigFiles : Option (List String)
deriving DecidableEq, Repr

/-- Embeds the struct AwsClientInput: input for the explicit-credential
constructor. -/
structure AwsClientInput where
  accessKeyID : String
  secretAccessKey : String
  sessionToken : String
  region : String
deriving DecidableEq, Repr

/- SDK request and response struct types. Their contents are never
inspected by this code, so each is an opaque wrapper; a Go pointer to
one of them (which may be nil) is `Option` of it. -/

structure AssumeRoleInput where val : Nat
deriving DecidableEq, Repr

structure AssumeRoleOutput where val : Nat
deriving DecidableEq, Repr

structure GetCallerIdentityInput where val : Nat
deriving DecidableEq, Repr

structure GetCallerIdentityOutput where val : Nat
deriving DecidableEq, Repr

structure GetFederationTokenInput where val : Nat
deriving DecidableEq, Repr

structure GetFederationTokenOutput where val : Nat
deriving DecidableEq, Repr

structure ListBucketsInput where val : Nat
deriving DecidableEq, Repr

structure ListBucketsOutput where val : Nat
deriving DecidableEq, Repr

structure DeleteBucketInput where val : Nat
deriving DecidableEq, Repr

structure DeleteBucketOutput where val : Nat
deriving DecidableEq, Repr

structure ListObjectsInput where val : Nat
deriving DecidableEq, Repr

structure ListObjectsOutput where val : Nat
deriving DecidableEq, Repr

structure DeleteObjectsInput where val : Nat
deriving DecidableEq, Repr

structure DeleteObjectsOutput where val : Nat
deriving DecidableEq, Repr

structure CreateAccessKeyInput where val : Nat
deriving DecidableEq, Repr

structure CreateAccessKeyOutput where val : Nat
deriving DecidableEq, Repr

structure DeleteAccessKeyInput where val : Nat
deriving DecidableEq, Repr

structure DeleteAccessKeyOutput where val : Nat
deriving DecidableEq, Repr

structure ListAccessKeysInput where val : Nat
deriving DecidableEq, Repr

structure ListAccessKeysOutput where val : Nat
deriving DecidableEq, Repr

structure GetUserInput where val : Nat
deriving DecidableEq, Repr

structure GetUserOutput where val : Nat
deriving DecidableEq, Repr

structure CreateUserInput where val : Nat
deriving DecidableEq, Repr

structure CreateUserOutput where val : Nat
deriving DecidableEq, Repr

structure ListUsersInput where val : Nat
deriving DecidableEq, Repr

structure ListUsersOutput where val : Nat
deriving DecidableEq, Repr

structure AttachUserPolicyInput where val : Nat
deriving DecidableEq, Repr

structure AttachUserPolicyOutput where val : Nat
deriving DecidableEq, Repr

/-- The stsiface.STSAPI surface used by this code: each operation maps a
request pointer to a (response pointer, error) pair, with behaviour
supplied by the SDK (or a mock). -/
structure STSAPI where
  assumeRole : Option AssumeRoleInput → Option AssumeRoleOutput × Option GoError
  getCallerIdentity : Option GetCallerIdentityInput → Option GetCallerIdentityOutput × Option GoError
  getFederationToken : Option GetFederationTokenInput → Option GetFederationTokenOutput × Option GoError

/-- The s3iface.S3API surface used by this code. -/
structure S3API where
  listBuckets : Option ListBucketsInput → Option ListBucketsOutput × Option GoError
  deleteBucket : Option DeleteBucketInput → Option DeleteBucketOutput × Option GoError
  listObjects : Option ListObjectsInput → Option ListObjectsOutput × Option GoError
  deleteObjects : Option DeleteObjectsInput → Option DeleteObjectsOutput × Option GoError

/-- The iamiface.IAMAPI surface used by this code. -/
structure IAMAPI where
  createAccessKey : Option CreateAccessKeyInput → Option CreateAccessKeyOutput × Option GoError
  deleteAccessKey : Option DeleteAccessKeyInput → Option DeleteAccessKeyOutput × Option GoError
  listAccessKeys : Option ListAccessKeysInput → Option ListAccessKeysOutput × Option GoError
  getUser : Option GetUserInput → Option GetUserOutput × Option GoError
  createUser : Option CreateUserInput → Option CreateUserOutput × Option GoError
  listUsers : Option ListUsersInput → Option ListUsersOutput × Option GoError
  attachUserPolicy : Option AttachUserPolicyInput → Option AttachUserPolicyOutput × Option GoError

/-- The struct AwsClient: the facade holding the three sub-clients. Each
field has a Go interface type, whose value may in principle be nil,
hence `Option`. -/
structure AwsClient where
  iamClient : Option IAMAPI
  stsClient : Option STSAPI
  s3Client : Option S3API

/-- The invariant named by the spec: all three sub-client fields of the
facade are non-nil. -/
def AwsClient.subClientsNonNil (c : AwsClient) : Prop :=
  c.iamClient.isSome ∧ c.stsClient.isSome ∧ c.s3Client.isSome

instance (c : AwsClient) : Decidable c.subClientsNonNil := by
  unfold AwsClient.subClientsNonNil
  infer_instance

/-- Embeds the option-building prefix of NewAwsClient: session.Options
with Region and Profile set, and SharedConfigFiles set to the
filepath.Abs resolution of configFile only when configFile is non-empty
(`absPath` is the filepath.Abs oracle; its error aborts construction). -/
def resolveOptions (absPath : String → Except GoError String)
    (profile region configFile : String) : Except GoError SessionOptions :=
  let opt : SessionOptions :=
    { config := { region := some region, credentials := none }
      profile := profile
      sharedConfigFiles := none }
  if configFile ≠ "" then
    match absPath configFile with
    | .error err => .error err
    | .ok absCfgPath => .ok { opt with sharedConfigFiles := some [absCfgPath] }
  else
    .ok opt

/-- Embeds the remainder of NewAwsClient after the options are built:
session.Must(session.NewSessionWithOptions(opt)) — a construction error
panics — then the credential probe sess.Config.Credentials.Get(); a
probe error passing the awserr.Error type assertion hits a switch on its
code whose every branch returns the probe error wrapped with the message
Could not create AWS session; any other probe result falls through to
returning the facade with the three sub-clients built from the session. -/
def sessionAndClients {σ : Type}
    (newSessionWithOptions : SessionOptions → Except GoError σ)
    (credGet : σ → Option GoError)
    (iamNew : σ → IAMAPI) (stsNew : σ → STSAPI) (s3New : σ → S3API)
    (opt : SessionOptions) : Outcome (Option AwsClient × Option GoError) :=
  match newSessionWithOptions opt with
  | .error err => .panicked err
  | .ok sess =>
    match credGet sess with
    | some (GoError.awsErr code msg) =>
        if code = "NoCredentialProviders" then
          .ok (none, some (errorsWrap (.awsErr code msg) "Could not create AWS session"))
        else
          .ok (none, some (errorsWrap (.awsErr code msg) "Could not create AWS session"))
    | _ =>
        .ok (some { iamClient := some (iamNew sess)
                    stsClient := some (stsNew sess)
                    s3Client := some (s3New sess) }, none)

/-- Embeds NewAwsClient, parameterised over the session state type σ and
the SDK oracles: filepath.Abs, session.NewSessionWithOptions, the
credential probe, and the three sub-client factories iam.New, sts.New,
s3.New. A filepath.Abs error is returned to the caller as-is; the rest
is `sessionAndClients` on the built options. -/
def NewAwsClient {σ : Type}
    (absPath : String → Except GoError String)
    (newSessionWithOptions : SessionOptions → Except GoError σ)
    (credGet : σ → Option GoError)
    (iamNew : σ → IAMAPI) (stsNew : σ → STSAPI) (s3New : σ → S3API)
    (profile region configFile : String) :
    Outcome (Option AwsClient × Option GoError) :=
  match resolveOptions absPath profile region configFile with
  | .error err => .ok (none, some err)
  | .ok opt => sessionAndClients newSessionWithOptions credGet iamNew stsNew s3New opt

/-- Embeds credentials.NewStaticCredentials. -/
def newStaticCredentials (id secret token : String) : StaticCreds :=
  { accessKeyID := id, secretAccessKey := secret, sessionToken := token }

/-- The aws.Config value NewAwsClientWithInput builds: static
credentials from the input triple, plus the input region. -/
def inputConfig (input : AwsClientInput) : Config :=
  { credentials := some (newStaticCredentials input.accessKeyID input.secretAccessKey input.sessionToken)
    region := some input.region }

/-- Embeds NewAwsClientWithInput: builds a config of static credentials
and region, calls session.NewSession (oracle `newSession`); its error is
returned as-is with a nil client, and on success the facade is returned
with the three sub-clients built from the session. There is no
credential probe on this path. -/
def NewAwsClientWithInput {σ : Type}
    (newSession : Config → Except GoError σ)
    (iamNew : σ → IAMAPI) (stsNew : σ → STSAPI) (s3New : σ → S3API)
    (input : AwsClientInput) : Option AwsClient × Option GoError :=
  match newSession (inputConfig input) with
  | .error err => (none, some err)
  | .ok s =>
      (some { iamClient := some (iamNew s)
              stsClient := some (stsNew s)
              s3Client := some (s3New s) }, none)

/-- The runtime error a Go method call through a nil interface value
raises. -/
def nilDeref : GoError :=
  .strErr "runtime error: invalid memory address or nil pointer dereference"

/- The fourteen forwarding methods. Each is a one-line forward to the
corresponding sub-client call in the source; the embedding returns the
receiver state after the call alongside the result so that frame
conditions are statable, and panics on a nil sub-client field as Go
would. -/

def AwsClient.AssumeRole (c : AwsClient) (input : Option AssumeRoleInput) :
    Outcome ((Option AssumeRoleOutput × Option GoError) × AwsClient) :=
  match c.stsClient with
  | some cl => .ok (cl.assumeRole input, c)
  | none => .panicked nilDeref

def AwsClient.GetCallerIdentity (c : AwsClient) (input : Option GetCallerIdentityInput) :
    Outcome ((Option GetCallerIdentityOutput × Option GoError) × AwsClient) :=
  match c.stsClient with
  | some cl => .ok (cl.getCallerIdentity input, c)
  | none => .panicked nilDeref

def AwsClient.GetFederationToken (c : AwsClient) (input : Option GetFederationTokenInput) :
    Outcome ((Option GetFederationTokenOutput × Option GoError) × AwsClient) :=
  match c.stsClient with
  | some cl => .ok (cl.getFederationToken input, c)
  | none => .panicked nilDeref

def AwsClient.ListBuckets (c : AwsClient) (input : Option ListBucketsInput) :
    Outcome ((Option ListBucketsOutput × Option GoError) × AwsClient) :=
  match c.s3Client with
  | some cl => .ok (cl.listBuckets input, c)
  | none => .panicked nilDeref

def AwsClient.DeleteBucket (c : AwsClient) (input : Option DeleteBucketInput) :
    Outcome ((Option DeleteBucketOutput × Option GoError) × AwsClient) :=
  match c.s3Client with
  | some cl => .ok (cl.deleteBucket input, c)
  | none => .panicked nilDeref

def AwsClient.ListObjects (c : AwsClient) (input : Option ListObjectsInput) :
    Outcome ((Option ListObjectsOutput × Option GoError) × AwsClient) :=
  match c.s3Client with
  | some cl => .ok (cl.listObjects input, c)
  | none => .panicked nilDeref

def AwsClient.DeleteObjects (c : AwsClient) (input : Option DeleteObjectsInput) :
    Outcome ((Option DeleteObjectsOutput × Option GoError) × AwsClient) :=
  match c.s3Client with
  | some cl => .ok (cl.deleteObjects input, c)
  | none => .panicked nilDeref

def AwsClient.CreateAccessKey (c : AwsClient) (input : Option CreateAccessKeyInput) :
    Outcome ((Option CreateAccessKeyOutput × Option GoError) × AwsClient) :=
  match c.iamClient with
  | some cl => .ok (cl.createAccessKey input, c)
  | none => .panicked nilDeref

def AwsClient.DeleteAccessKey (c : AwsClient) (input : Option DeleteAccessKeyInput) :
    Outcome ((Option DeleteAccessKeyOutput × Option GoError) × AwsClient) :=
  match c.iamClient with
  | some cl => .ok (cl.deleteAccessKey input, c)
  | none => .panicked nilDeref

def AwsClient.ListAccessKeys (c : AwsClient) (input : Option ListAccessKeysInput) :
    Outcome ((Option ListAccessKeysOutput × Option GoError) × AwsClient) :=
  match c.iamClient with
  | some cl => .ok (cl.listAccessKeys input, c)
  | none => .panicked nilDeref

def AwsClient.GetUser (c : AwsClient) (input : Option GetUserInput) :
    Outcome ((Option GetUserOutput × Option GoError) × AwsClient) :=
  match c.iamClient with
  | some cl => .ok (cl.getUser input, c)
  | none => .panicked nilDeref

def AwsClient.CreateUser (c : AwsClient) (input : Option CreateUserInput) :
    Outcome ((Option CreateUserOutput × Option GoError) × AwsClient) :=
  match c.iamClient with
  | some cl => .ok (cl.createUser input, c)
  | none => .panicked nilDeref

def AwsClient.ListUsers (c : AwsClient) (input : Option ListUsersInput) :
    Outcome ((Option ListUsersOutput × Option GoError) × AwsClient) :=
  match c.iamClient with
  | some cl => .ok (cl.listUsers input, c)
  | none => .panicked nilDeref

def AwsClient.AttachUserPolicy (c : AwsClient) (input : Option AttachUserPolicyInput) :
    Outcome ((Option AttachUserPolicyOutput × Option GoError) × AwsClient) :=
  match c.iamClient with
  | some cl => .ok (cl.attachUserPolicy input, c)
  | none => .panicked nilDeref

/- Concrete sample oracles and clients, used by witness and
counterexample theorems. The session state type is instantiated at Nat. -/

/-- Sample STS sub-client with fixed responses. -/
def sampleSTS : STSAPI :=
  { assumeRole := fun _ => (some { val := 7 }, none)
    getCallerIdentity := fun _ => (some { val := 8 }, none)
    getFederationToken := fun _ => (none, some (.strErr "sts unavailable")) }

/-- Sample S3 sub-client with fixed responses. -/
def sampleS3 : S3API :=
  { listBuckets := fun _ => (some { val := 9 }, none)
    deleteBucket := fun _ => (none, some (.awsErr "NoSuchBucket" "bucket missing"))
    listObjects := fun _ => (some { val := 10 }, none)
    deleteObjects := fun _ => (some { val := 11 }, none) }

/-- Sample IAM sub-client with fixed responses. -/
def sampleIAM : IAMAPI :=
  { createAccessKey := fun _ => (some { val := 12 }, none)
    deleteAccessKey := fun _ => (some { val := 13 }, none)
    listAccessKeys := fun _ => (some { val := 14 }, none)
    getUser := fun _ => (some { val := 15 }, none)
    createUser := fun _ => (some { val := 16 }, none)
    listUsers := fun _ => (some { val := 17 }, none)
    attachUserPolicy := fun _ => (none, some (.strErr "policy rejected")) }

/-- A fully built facade over the sample sub-clients. -/
def sampleClient : AwsClient :=
  { iamClient := some sampleIAM, stsClient := some sampleSTS, s3Client := some sampleS3 }

/-- Sample filepath.Abs oracle: prefixes the working directory. -/
def sAbs : String → Except GoError String := fun p => .ok ("/wd/" ++ p)

/-- Sample filepath.Abs oracle that fails (e.g. Getwd failure). -/
def sAbsFail : String → Except GoError String := fun _ => .error (.strErr "getwd failed")

/-- Sample session.NewSessionWithOptions oracle that succeeds. -/
def sNewSession : SessionOptions → Except GoError Nat := fun _ => .ok 0

/-- Sample session.NewSessionWithOptions oracle that fails. -/
def sNewSessionFail : SessionOptions → Except GoError Nat := fun _ => .error (.strErr "no session")

/-- Sample credential probe that succeeds (nil error). -/
def sCredOk : Nat → Option GoError := fun _ => none

/-- Sample credential probe failing with an awserr.Error (the missing
credential source case). -/
def sCredAws : Nat → Option GoError :=
  fun _ => some (.awsErr "NoCredentialProviders" "no valid providers in chain")

/-- Sample credential probe failing with a plain non-awserr error. -/
def sCredPlain : Nat → Option GoError := fun _ => some (.strErr "keyring unavailable")

/-- Sample iam.New factory. -/
def sIamNew : Nat → IAMAPI := fun _ => sampleIAM

/-- Sample sts.New factory. -/
def sStsNew : Nat → STSAPI := fun _ => sampleSTS

/-- Sample s3.New factory. -/
def sS3New : Nat → S3API := fun _ => sampleS3

/-- Sample session.NewSession oracle (construction path B) that
succeeds. -/
def sNewSessionB : Config → Except GoError Nat := fun _ => .ok 1

/-- Sample session.NewSession oracle (construction path B) that
fails. -/
def sNewSessionBFail : Config → Except GoError Nat :=
  fun _ => .error (.strErr "invalid region")

/-- Sample explicit-credential input. -/
def sampleInput : AwsClientInput :=
  { accessKeyID := "AKIAEXAMPLE", secretAccessKey := "secretkey"
    sessionToken := "token", region := "us-east-1" }

/-- C1 (counterexample): the claim says NewAwsClient never returns a
non-nil client when the credential probe fails; here the probe fails
with a plain error that does not implement awserr.Error, and
NewAwsClient nevertheless returns a non-nil client and a nil error. -/
theorem c1_counterexample :
    sCredPlain 0 = some (GoError.strErr "keyring unavailable") ∧
    NewAwsClient sAbs sNewSession sCredPlain sIamNew sStsNew sS3New
        "default" "us-east-1" ""
      = Outcome.ok (some { iamClient := some sampleIAM
                           stsClient := some sampleSTS
                           s3Client := some sampleS3 }, none) :=
  ⟨rfl, rfl⟩

/-- C1 (amended): whenever the credential probe fails with an error that
implements awserr.Error, NewAwsClient returns a nil client together with
the probe error wrapped with the message Could not create AWS session. -/
theorem c1_probe_awserr_fails_construction {σ : Type}
    (absPath : String → Except GoError String)
    (nswo : SessionOptions → Except GoError σ)
    (credGet : σ → Option GoError)
    (iamNew : σ → IAMAPI) (stsNew : σ → STSAPI) (s3New : σ → S3API)
    (profile region configFile : String) (opt : SessionOptions) (sess : σ)
    (code msg : String)
    (hopt : resolveOptions absPath profile region configFile = .ok opt)
    (hsess : nswo opt = .ok sess)
    (hcred : credGet sess = some (.awsErr code msg)) :
    NewAwsClient absPath nswo credGet iamNew stsNew s3New profile region configFile
      = .ok (none, some (errorsWrap (.awsErr code msg) "Could not create AWS session")) := by
  unfold NewAwsClient sessionAndClients
  simp only [hopt, hsess, hcred]
  split <;> rfl

/-- Witness for C1 (amended) at concrete oracles: the probe fails with
the NoCredentialProviders awserr, and construction fails with the
wrapped error. -/
theorem c1_probe_awserr_fails_construction_witness :
    NewAwsClient sAbs sNewSession sCredAws sIamNew sStsNew sS3New
        "default" "us-east-1" "cfg"
      = .ok (none, some (errorsWrap
          (.awsErr "NoCredentialProviders" "no valid providers in chain")
          "Could not create AWS session")) :=
  c1_probe_awserr_fails_construction sAbs sNewSession sCredAws sIamNew sStsNew sS3New
    "default" "us-east-1" "cfg"
    { config := { region := some "us-east-1", credentials := none }
      profile := "default", sharedConfigFiles := some ["/wd/cfg"] }
    0 "NoCredentialProviders" "no valid providers in chain" rfl rfl rfl

/-- C2: when the credential probe returns a non-nil error that does not
implement awserr.Error, the type assertion fails and NewAwsClient falls
through to returning a non-nil client and a nil error: the probe error
is swallowed. -/
theorem c2_non_awserr_probe_error_swallowed {σ : Type}
    (absPath : String → Except GoError String)
    (nswo : SessionOptions → Except GoError σ)
    (credGet : σ → Option GoError)
    (iamNew : σ → IAMAPI) (stsNew : σ → STSAPI) (s3New : σ → S3API)
    (profile region configFile : String) (opt : SessionOptions) (sess : σ)
    (e : GoError)
    (hopt : resolveOptions absPath profile region configFile = .ok opt)
    (hsess : nswo opt = .ok sess)
    (hcred : credGet sess = some e)
    (hnotaws : e.isAwsErr = false) :
    NewAwsClient absPath nswo credGet iamNew stsNew s3New profile region configFile
      = .ok (some { iamClient := some (iamNew sess)
                    stsClient := some (stsNew sess)
                    s3Client := some (s3New sess) }, none) := by
  unfold NewAwsClient sessionAndClients
  simp only [hopt, hsess, hcred]
  cases e with
  | awsErr code msg => simp [GoError.isAwsErr] at hnotaws
  | strErr msg => rfl
  | wrapped msg inner => rfl

/-- Witness for C2 at concrete oracles: a plain probe error is swallowed
and the client is returned. -/
theorem c2_non_awserr_probe_error_swallowed_witness :
    NewAwsClient sAbs sNewSession sCredPlain sIamNew sStsNew sS3New
        "default" "us-east-1" "cfg"
      = .ok (some { iamClient := some sampleIAM
                    stsClient := some sampleSTS
                    s3Client := some sampleS3 }, none) :=
  c2_non_awserr_probe_error_swallowed sAbs sNewSession sCredPlain sIamNew sStsNew sS3New
    "default" "us-east-1" "cfg"
    { config := { region := some "us-east-1", credentials := none }
      profile := "default", sharedConfigFiles := some ["/wd/cfg"] }
    0 (.strErr "keyring unavailable") rfl rfl rfl rfl

/-- C3 (counterexample): the claim says every construction failure in
NewAwsClient is returned wrapped with a contextual description; here the
config-file path resolution fails (filepath.Abs error) and NewAwsClient
returns that error bare, with no contextual wrap. -/
theorem c3_counterexample :
    NewAwsClient sAbsFail sNewSession sCredOk sIamNew sStsNew sS3New
        "default" "us-east-1" "relative.cfg"
      = .ok (none, some (GoError.strErr "getwd failed")) ∧
    GoError.isWrapped (GoError.strErr "getwd failed") = false :=
  ⟨rfl, rfl⟩

/-- C3 (amended): every construction failure in NewAwsClient is detected
during construction, but the treatment differs by kind: a bad
config-file path error is returned to the caller without the contextual
wrap; a session-construction failure panics (session.Must) instead of
being returned; a credential-probe failure recognized as an awserr.Error
is wrapped with a contextual description and returned. -/
theorem c3_construction_failure_cases {σ : Type}
    (absPath : String → Except GoError String)
    (nswo : SessionOptions → Except GoError σ)
    (credGet : σ → Option GoError)
    (iamNew : σ → IAMAPI) (stsNew : σ → STSAPI) (s3New : σ → S3API)
    (profile region configFile : String) :
    (∀ e : GoError, configFile ≠ "" → absPath configFile = .error e →
      NewAwsClient absPath nswo credGet iamNew stsNew s3New profile region configFile
        = .ok (none, some e)) ∧
    (∀ (opt : SessionOptions) (e : GoError),
      resolveOptions absPath profile region configFile = .ok opt →
      nswo opt = .error e →
      NewAwsClient absPath nswo credGet iamNew stsNew s3New profile region configFile
        = .panicked e) ∧
    (∀ (opt : SessionOptions) (sess : σ) (code msg : String),
      resolveOptions absPath profile region configFile = .ok opt →
      nswo opt = .ok sess →
      credGet sess = some (.awsErr code msg) →
      NewAwsClient absPath nswo credGet iamNew stsNew s3New profile region configFile
        = .ok (none, some (errorsWrap (.awsErr code msg) "Could not create AWS session"))) := by
  refine ⟨fun e hne habs => ?_, fun opt e hopt hsess => ?_, fun opt sess code msg hopt hsess hcred => ?_⟩
  · have hro : resolveOptions absPath profile region configFile = .error e := by
      unfold resolveOptions
      rw [if_pos hne, habs]
    unfold NewAwsClient
    simp only [hro]
  · unfold NewAwsClient sessionAndClients
    simp only [hopt, hsess]
  · unfold NewAwsClient sessionAndClients
    simp only [hopt, hsess, hcred]
    split <;> rfl

/-- Witness for C3 (amended) at concrete oracles: a failing filepath.Abs
oracle makes NewAwsClient return the bare unwrapped error. -/
theorem c3_construction_failure_cases_witness :
    NewAwsClient sAbsFail sNewSession sCredOk sIamNew sStsNew sS3New
        "default" "us-east-1" "other.cfg"
      = .ok (none, some (GoError.strErr "getwd failed")) :=
  (c3_construction_failure_cases sAbsFail sNewSession sCredOk sIamNew sStsNew sS3New
      "default" "us-east-1" "other.cfg").1
    (GoError.strErr "getwd failed") (by decide) rfl

/-- C5: NewAwsClientWithInput has no credential-probing step (its
embedding takes no credential-probe oracle at all); a session
construction error is returned as-is with a nil client, and on session
construction success the returned error is nil. -/
theorem c5_with_input_error_only_from_session {σ : Type}
    (newSession : Config → Except GoError σ)
    (iamNew : σ → IAMAPI) (stsNew : σ → STSAPI) (s3New : σ → S3API)
    (input : AwsClientInput) :
    (∀ e : GoError, newSession (inputConfig input) = .error e →
      NewAwsClientWithInput newSession iamNew stsNew s3New input = (none, some e)) ∧
    (∀ sess : σ, newSession (inputConfig input) = .ok sess →
      (NewAwsClientWithInput newSession iamNew stsNew s3New input).2 = none) := by
  refine ⟨fun e he => ?_, fun sess hs => ?_⟩
  · unfold NewAwsClientWithInput
    simp only [he]
  · unfold NewAwsClientWithInput
    simp only [hs]

/-- Witness for C5 at concrete oracles: a session-construction failure
yields a nil client and exactly that error. -/
theorem c5_with_input_error_only_from_session_witness :
    NewAwsClientWithInput sNewSessionBFail sIamNew sStsNew sS3New sampleInput
      = (none, some (GoError.strErr "invalid region")) :=
  (c5_with_input_error_only_from_session sNewSessionBFail sIamNew sStsNew sS3New
      sampleInput).1 (GoError.strErr "invalid region") rfl

/-- C6: for a non-empty configFile whose filepath.Abs resolution
succeeds, the session options built by NewAwsClient carry the resolved
absolute path as the single shared config file, and NewAwsClient
proceeds to session creation with exactly those options. -/
theorem c6_config_file_resolved_absolute {σ : Type}
    (absPath : String → Except GoError String)
    (nswo : SessionOptions → Except GoError σ)
    (credGet : σ → Option GoError)
    (iamNew : σ → IAMAPI) (stsNew : σ → STSAPI) (s3New : σ → S3API)
    (profile region configFile absP : String)
    (hne : configFile ≠ "") (habs : absPath configFile = .ok absP) :
    resolveOptions absPath profile region configFile
      = .ok { config := { region := some region, credentials := none }
              profile := profile
              sharedConfigFiles := some [absP] } ∧
    NewAwsClient absPath nswo credGet iamNew stsNew s3New profile region configFile
      = sessionAndClients nswo credGet iamNew stsNew s3New
          { config := { region := some region, credentials := none }
            profile := profile
            sharedConfigFiles := some [absP] } := by
  have hro : resolveOptions absPath profile region configFile
      = .ok { config := { region := some region, credentials := none }
              profile := profile
              sharedConfigFiles := some [absP] } := by
    unfold resolveOptions
    rw [if_pos hne, habs]
  refine ⟨hro, ?_⟩
  unfold NewAwsClient
  simp only [hro]

/-- Witness for C6 at concrete oracles: the relative path gets the
working-directory prefix and lands in SharedConfigFiles. -/
theorem c6_config_file_resolved_absolute_witness :
    NewAwsClient sAbs sNewSession sCredOk sIamNew sStsNew sS3New
        "default" "us-east-1" "my.cfg"
      = sessionAndClients sNewSession sCredOk sIamNew sStsNew sS3New
          { config := { region := some "us-east-1", credentials := none }
            profile := "default"
            sharedConfigFiles := some ["/wd/my.cfg"] } :=
  (c6_config_file_resolved_absolute sAbs sNewSession sCredOk sIamNew sStsNew sS3New
      "default" "us-east-1" "my.cfg" "/wd/my.cfg" (by decide) rfl).2

/-- C7: for an empty configFile the session options built by
NewAwsClient leave the shared-config-files field unset (the nil slice),
and NewAwsClient proceeds to session creation with exactly those
options. -/
theorem c7_empty_config_file_no_option {σ : Type}
    (absPath : String → Except GoError String)
    (nswo : SessionOptions → Except GoError σ)
    (credGet : σ → Option GoError)
    (iamNew : σ → IAMAPI) (stsNew : σ → STSAPI) (s3New : σ → S3API)
    (profile region : String) :
    resolveOptions absPath profile region ""
      = .ok { config := { region := some region, credentials := none }
              profile := profile
              sharedConfigFiles := none } ∧
    NewAwsClient absPath nswo credGet iamNew stsNew s3New profile region ""
      = sessionAndClients nswo credGet iamNew stsNew s3New
          { config := { region := some region, credentials := none }
            profile := profile
            sharedConfigFiles := none } := by
  have hro : resolveOptions absPath profile region ""
      = .ok { config := { region := some region, credentials := none }
              profile := profile
              sharedConfigFiles := none } := by
    unfold resolveOptions
    rw [if_neg (by decide)]
  refine ⟨hro, ?_⟩
  unfold NewAwsClient
  simp only [hro]

/-- C8: when session construction from the static-credential config
succeeds, NewAwsClientWithInput returns a non-nil client (with all three
sub-clients built from the session) and a nil error. -/
theorem c8_with_input_success {σ : Type}
    (newSession : Config → Except GoError σ)
    (iamNew : σ → IAMAPI) (stsNew : σ → STSAPI) (s3New : σ → S3API)
    (input : AwsClientInput) (sess : σ)
    (hs : newSession (inputConfig input) = .ok sess) :
    NewAwsClientWithInput newSession iamNew stsNew s3New input
      = (some { iamClient := some (iamNew sess)
                stsClient := some (stsNew sess)
                s3Client := some (s3New sess) }, none) := by
  unfold NewAwsClientWithInput
  simp only [hs]

/-- Witness for C8 at concrete oracles: valid static credentials and a
region give a non-nil client and nil error. -/
theorem c8_with_input_success_witness :
    NewAwsClientWithInput sNewSessionB sIamNew sStsNew sS3New sampleInput
      = (some { iamClient := some sampleIAM
                stsClient := some sampleSTS
                s3Client := some sampleS3 }, none) :=
  c8_with_input_success sNewSessionB sIamNew sStsNew sS3New sampleInput 1 rfl

/-- C4: every forwarding method of AwsClient, on any input, returns
exactly the (response, error) pair produced by the corresponding
sub-client call, with the receiver unchanged: no retry, no parameter
validation, no transformation of the response or the error. -/
theorem c4_forwarding_passthrough (c : AwsClient)
    (stsc : STSAPI) (s3c : S3API) (iamc : IAMAPI)
    (hsts : c.stsClient = some stsc) (hs3 : c.s3Client = some s3c)
    (hiam : c.iamClient = some iamc) :
    (∀ i, c.AssumeRole i = .ok (stsc.assumeRole i, c)) ∧
    (∀ i, c.GetCallerIdentity i = .ok (stsc.getCallerIdentity i, c)) ∧
    (∀ i, c.GetFederationToken i = .ok (stsc.getFederationToken i, c)) ∧
    (∀ i, c.ListBuckets i = .ok (s3c.listBuckets i, c)) ∧
    (∀ i, c.DeleteBucket i = .ok (s3c.deleteBucket i, c)) ∧
    (∀ i, c.ListObjects i = .ok (s3c.listObjects i, c)) ∧
    (∀ i, c.DeleteObjects i = .ok (s3c.deleteObjects i, c)) ∧
    (∀ i, c.CreateAccessKey i = .ok (iamc.createAccessKey i, c)) ∧
    (∀ i, c.DeleteAccessKey i = .ok (iamc.deleteAccessKey i, c)) ∧
    (∀ i, c.ListAccessKeys i = .ok (iamc.listAccessKeys i, c)) ∧
    (∀ i, c.GetUser i = .ok (iamc.getUser i, c)) ∧
    (∀ i, c.CreateUser i = .ok (iamc.createUser i, c)) ∧
    (∀ i, c.ListUsers i = .ok (iamc.listUsers i, c)) ∧
    (∀ i, c.AttachUserPolicy i = .ok (iamc.attachUserPolicy i, c)) := by
  refine ⟨fun i => ?_, fun i => ?_, fun i => ?_, fun i => ?_, fun i => ?_,
    fun i => ?_, fun i => ?_, fun i => ?_, fun i => ?_, fun i => ?_,
    fun i => ?_, fun i => ?_, fun i => ?_, fun i => ?_⟩
  · unfold AwsClient.AssumeRole
    rw [hsts]
  · unfold AwsClient.GetCallerIdentity
    rw [hsts]
  · unfold AwsClient.GetFederationToken
    rw [hsts]
  · unfold AwsClient.ListBuckets
    rw [hs3]
  · unfold AwsClient.DeleteBucket
    rw [hs3]
  · unfold AwsClient.ListObjects
    rw [hs3]
  · unfold AwsClient.DeleteObjects
    rw [hs3]
  · unfold AwsClient.CreateAccessKey
    rw [hiam]
  · unfold AwsClient.DeleteAccessKey
    rw [hiam]
  · unfold AwsClient.ListAccessKeys
    rw [hiam]
  · unfold AwsClient.GetUser
    rw [hiam]
  · unfold AwsClient.CreateUser
    rw [hiam]
  · unfold AwsClient.ListUsers
    rw [hiam]
  · unfold AwsClient.AttachUserPolicy
    rw [hiam]

/-- Witness for C4 at a concrete client and input: AssumeRole returns
exactly the fixed pair the sample STS sub-client produces. -/
theorem c4_forwarding_passthrough_witness :
    sampleClient.AssumeRole (some { val := 1 })
      = .ok ((some { val := 7 }, none), sampleClient) :=
  (c4_forwarding_passthrough sampleClient sampleSTS sampleS3 sampleIAM
      rfl rfl rfl).1 (some { val := 1 })

/-- C9: whenever either constructor returns a client with a nil error,
all three sub-client fields of that client are non-nil, and the
invariant is preserved by every forwarding method (the receiver state
after any call still satisfies it). -/
theorem c9_subclients_nonnil_invariant {σ : Type}
    (absPath : String → Except GoError String)
    (nswo : SessionOptions → Except GoError σ)
    (credGet : σ → Option GoError)
    (iamNew : σ → IAMAPI) (stsNew : σ → STSAPI) (s3New : σ → S3API)
    (profile region configFile : String)
    (newSession : Config → Except GoError σ) (input : AwsClientInput) :
    (∀ c : AwsClient,
      NewAwsClient absPath nswo credGet iamNew stsNew s3New profile region configFile
        = .ok (some c, none) → c.subClientsNonNil) ∧
    (∀ c : AwsClient,
      NewAwsClientWithInput newSession iamNew stsNew s3New input
        = (some c, none) → c.subClientsNonNil) ∧
    (∀ c : AwsClient, c.subClientsNonNil →
      (∀ i out post, c.AssumeRole i = .ok (out, post) → post.subClientsNonNil) ∧
      (∀ i out post, c.GetCallerIdentity i = .ok (out, post) → post.subClientsNonNil) ∧
      (∀ i out post, c.GetFederationToken i = .ok (out, post) → post.subClientsNonNil) ∧
      (∀ i out post, c.ListBuckets i = .ok (out, post) → post.subClientsNonNil) ∧
      (∀ i out post, c.DeleteBucket i = .ok (out, post) → post.subClientsNonNil) ∧
      (∀ i out post, c.ListObjects i = .ok (out, post) → post.subClientsNonNil) ∧
      (∀ i out post, c.DeleteObjects i = .ok (out, post) → post.subClientsNonNil) ∧
      (∀ i out post, c.CreateAccessKey i = .ok (out, post) → post.subClientsNonNil) ∧
      (∀ i out post, c.DeleteAccessKey i = .ok (out, post) → post.subClientsNonNil) ∧
      (∀ i out post, c.ListAccessKeys i = .ok (out, post) → post.subClientsNonNil) ∧
      (∀ i out post, c.GetUser i = .ok (out, post) → post.subClientsNonNil) ∧
      (∀ i out post, c.CreateUser i = .ok (out, post) → post.subClientsNonNil) ∧
      (∀ i out post, c.ListUsers i = .ok (out, post) → post.subClientsNonNil) ∧
      (∀ i out post, c.AttachUserPolicy i = .ok (out, post) → post.subClientsNonNil)) := by
  refine ⟨fun c h => ?_, fun c h => ?_, fun c hc => ?_⟩
  · unfold NewAwsClient at h
    split at h
    · simp only [Outcome.ok.injEq, Prod.mk.injEq] at h
      exact Option.noConfusion h.1
    · unfold sessionAndClients at h
      split at h
      · exact Outcome.noConfusion h
      · split at h
        · split at h <;>
          · simp only [Outcome.ok.injEq, Prod.mk.injEq] at h
            exact Option.noConfusion h.1
        · simp only [Outcome.ok.injEq, Prod.mk.injEq, Option.some.injEq] at h
          obtain ⟨hc, -⟩ := h
          subst hc
          exact ⟨rfl, rfl, rfl⟩
  · unfold NewAwsClientWithInput at h
    split at h
    · simp only [Prod.mk.injEq] at h
      exact Option.noConfusion h.1
    · simp only [Prod.mk.injEq, Option.some.injEq] at h
      obtain ⟨hc, -⟩ := h
      subst hc
      exact ⟨rfl, rfl, rfl⟩
  · refine ⟨fun i out post h => ?_, fun i out post h => ?_, fun i out post h => ?_,
      fun i out post h => ?_, fun i out post h => ?_, fun i out post h => ?_,
      fun i out post h => ?_, fun i out post h => ?_, fun i out post h => ?_,
      fun i out post h => ?_, fun i out post h => ?_, fun i out post h => ?_,
      fun i out post h => ?_, fun i out post h => ?_⟩
    · unfold AwsClient.AssumeRole at h
      split at h
      · simp only [Outcome.ok.injEq, Prod.mk.injEq] at h
        exact h.2 ▸ hc
      · exact Outcome.noConfusion h
    · unfold AwsClient.GetCallerIdentity at h
      split at h
      · simp only [Outcome.ok.injEq, Prod.mk.injEq] at h
        exact h.2 ▸ hc
      · exact Outcome.noConfusion h
    · unfold AwsClient.GetFederationToken at h
      split at h
      · simp only [Outcome.ok.injEq, Prod.mk.injEq] at h
        exact h.2 ▸ hc
      · exact Outcome.noConfusion h
    · unfold AwsClient.ListBuckets at h
      split at h
      · simp only [Outcome.ok.injEq, Prod.mk.injEq] at h
        exact h.2 ▸ hc
      · exact Outcome.noConfusion h
    · unfold AwsClient.DeleteBucket at h
      split at h
      · simp only [Outcome.ok.injEq, Prod.mk.injEq] at h
        exact h.2 ▸ hc
      · exact Outcome.noConfusion h
    · unfold AwsClient.ListObjects at h
      split at h
      · simp only [Outcome.ok.injEq, Prod.mk.injEq] at h
        exact h.2 ▸ hc
      · exact Outcome.noConfusion h
    · unfold AwsClient.DeleteObjects at h
      split at h
      · simp only [Outcome.ok.injEq, Prod.mk.injEq] at h
        exact h.2 ▸ hc
      · exact Outcome.noConfusion h
    · unfold AwsClient.CreateAccessKey at h
      split at h
      · simp only [Outcome.ok.injEq, Prod.mk.injEq] at h
        exact h.2 ▸ hc
      · exact Outcome.noConfusion h
    · unfold AwsClient.DeleteAccessKey at h
      split at h
      · simp only [Outcome.ok.injEq, Prod.mk.injEq] at h
        exact h.2 ▸ hc
      · exact Outcome.noConfusion h
    · unfold AwsClient.ListAccessKeys at h
      split at h
      · simp only [Outcome.ok.injEq, Prod.mk.injEq] at h
        exact h.2 ▸ hc
      · exact Outcome.noConfusion h
    · unfold AwsClient.GetUser at h
      split at h
      · simp only [Outcome.ok.injEq, Prod.mk.injEq] at h
        exact h.2 ▸ hc
      · exact Outcome.noConfusion h
    · unfold AwsClient.CreateUser at h
      split at h
      · simp only [Outcome.ok.injEq, Prod.mk.injEq] at h
        exact h.2 ▸ hc
      · exact Outcome.noConfusion h
    · unfold AwsClient.ListUsers at h
      split at h
      · simp only [Outcome.ok.injEq, Prod.mk.injEq] at h
        exact h.2 ▸ hc
      · exact Outcome.noConfusion h
    · unfold AwsClient.AttachUserPolicy at h
      split at h
      · simp only [Outcome.ok.injEq, Prod.mk.injEq] at h
        exact h.2 ▸ hc
      · exact Outcome.noConfusion h

/-- Witness for C9 at concrete oracles: the client built by NewAwsClient
with a succeeding probe has all three sub-clients non-nil. -/
theorem c9_subclients_nonnil_invariant_witness :
    sampleClient.subClientsNonNil :=
  (c9_subclients_nonnil_invariant sAbs sNewSession sCredOk sIamNew sStsNew sS3New
      "default" "us-east-1" "" sNewSessionB sampleInput).1 sampleClient rfl

/-- C10: the facade is immutable: every forwarding method, on every
input, leaves the receiver unchanged — the post-call state equals the
client it was called on. -/
theorem c10_facade_immutable (c : AwsClient) :
    (∀ i out post, c.AssumeRole i = .ok (out, post) → post = c) ∧
    (∀ i out post, c.GetCallerIdentity i = .ok (out, post) → post = c) ∧
    (∀ i out post, c.GetFederationToken i = .ok (out, post) → post = c) ∧
    (∀ i out post, c.ListBuckets i = .ok (out, post) → post = c) ∧
    (∀ i out post, c.DeleteBucket i = .ok (out, post) → post = c) ∧
    (∀ i out post, c.ListObjects i = .ok (out, post) → post = c) ∧
    (∀ i out post, c.DeleteObjects i = .ok (out, post) → post = c) ∧
    (∀ i out post, c.CreateAccessKey i = .ok (out, post) → post = c) ∧
    (∀ i out post, c.DeleteAccessKey i = .ok (out, post) → post = c) ∧
    (∀ i out post, c.ListAccessKeys i = .ok (out, post) → post = c) ∧
    (∀ i out post, c.GetUser i = .ok (out, post) → post = c) ∧
    (∀ i out post, c.CreateUser i = .ok (out, post) → post = c) ∧
    (∀ i out post, c.ListUsers i = .ok (out, post) → post = c) ∧
    (∀ i out post, c.AttachUserPolicy i = .ok (out, post) → post = c) := by
  refine ⟨fun i out post h => ?_, fun i out post h => ?_, fun i out post h => ?_,
    fun i out post h => ?_, fun i out post h => ?_, fun i out post h => ?_,
    fun i out post h => ?_, fun i out post h => ?_, fun i out post h => ?_,
    fun i out post h => ?_, fun i out post h => ?_, fun i out post h => ?_,
    fun i out post h => ?_, fun i out post h => ?_⟩
  · unfold AwsClient.AssumeRole at h
    split at h
    · simp only [Outcome.ok.injEq, Prod.mk.injEq] at h
      exact h.2.symm
    · exact Outcome.noConfusion h
  · unfold AwsClient.GetCallerIdentity at h
    split at h
    · simp only [Outcome.ok.injEq, Prod.mk.injEq] at h
      exact h.2.symm
    · exact Outcome.noConfusion h
  · unfold AwsClient.GetFederationToken at h
    split at h
    · simp only [Outcome.ok.injEq, Prod.mk.injEq] at h
      exact h.2.symm
    · exact Outcome.noConfusion h
  · unfold AwsClient.ListBuckets at h
    split at h
    · simp only [Outcome.ok.injEq, Prod.mk.injEq] at h
      exact h.2.symm
    · exact Outcome.noConfusion h
  · unfold AwsClient.DeleteBucket at h
    split at h
    · simp only [Outcome.ok.injEq, Prod.mk.injEq] at h
      exact h.2.symm
    · exact Outcome.noConfusion h
  · unfold AwsClient.ListObjects at h
    split at h
    · simp only [Outcome.ok.injEq, Prod.mk.injEq] at h
      exact h.2.symm
    · exact Outcome.noConfusion h
  · unfold AwsClient.DeleteObjects at h
    split at h
    · simp only [Outcome.ok.injEq, Prod.mk.injEq] at h
      exact h.2.symm
    · exact Outcome.noConfusion h
  · unfold AwsClient.CreateAccessKey at h
    split at h
    · simp only [Outcome.ok.injEq, Prod.mk.injEq] at h
      exact h.2.symm
    · exact Outcome.noConfusion h
  · unfold AwsClient.DeleteAccessKey at h
    split at h
    · simp only [Outcome.ok.injEq, Prod.mk.injEq] at h
      exact h.2.symm
    · exact Outcome.noConfusion h
  · unfold AwsClient.ListAccessKeys at h
    split at h
    · simp only [Outcome.ok.injEq, Prod.mk.injEq] at h
      exact h.2.symm
    · exact Outcome.noConfusion h
  · unfold AwsClient.GetUser at h
    split at h
    · simp only [Outcome.ok.injEq, Prod.mk.injEq] at h
      exact h.2.symm
    · exact Outcome.noConfusion h
  · unfold AwsClient.CreateUser at h
    split at h
    · simp only [Outcome.ok.injEq, Prod.mk.injEq] at h
      exact h.2.symm
    · exact Outcome.noConfusion h
  · unfold AwsClient.ListUsers at h
    split at h
    · simp only [Outcome.ok.injEq, Prod.mk.injEq] at h
      exact h.2.symm
    · exact Outcome.noConfusion h
  · unfold AwsClient.AttachUserPolicy at h
    split at h
    · simp only [Outcome.ok.injEq, Prod.mk.injEq] at h
      exact h.2.symm
    · exact Outcome.noConfusion h

/-- Witness for C10 at a concrete client and call: the post-call state
of a sample GetUser call is the sample client itself. -/
theorem c10_facade_immutable_witness :
    ({ iamClient := some sampleIAM
       stsClient := some sampleSTS
       s3Client := some sampleS3 } : AwsClient) = sampleClient :=
  (c10_facade_immutable sampleClient).2.2.2.2.2.2.2.2.2.2.1 (some { val := 2 })
    (sampleIAM.getUser (some { val := 2 }))
    { iamClient := some sampleIAM
      stsClient := some sampleSTS
      s3Client := some sampleS3 } rfl

end OsdctlAws
